import Mathlib

/-!
Verification of the active-workout session engine of the lift-state-flow
repository (a React/TypeScript workout tracker).  The definitions below are a
shallow embedding of the code:

* the data model follows `src/types/workout.ts` as used by the current code
  (exercise type includes `cardio`; `SetEntry` carries the cardio fields;
  `ActiveWorkoutState` carries `workoutExercises` and `isFreeWorkout`);
  media blobs, display metadata (equipment, muscles, movement patterns) and
  creation timestamps are omitted because no embedded operation reads them;
* the persistence layer (`src/lib/db.ts`, IndexedDB) is modelled as lists with
  upsert-by-id semantics, together with the single-slot active-workout
  snapshot (localStorage) in a `World` record;
* the hook operations (`useActiveWorkout` in `src/hooks/useWorkoutData.ts`)
  and the screen handlers (`src/pages/ActiveWorkout.tsx`,
  `src/components/CardioWorkoutView.tsx`) are embedded as explicit
  state-passing functions; fresh ids (`uuidv4()`) and clock reads
  (`Date.now()`) are passed in as arguments.

JavaScript numeric parsing of the entry-form strings (`parseInt`,
`parseFloat`, and the `x || undefined` falsiness fallback) is modelled
faithfully for decimal inputs.
-/

namespace LiftStateFlow

/-! ## Data model (src/types/workout.ts) -/

inductive ExerciseType
  | reps
  | time
  | cardio
deriving DecidableEq

structure Exercise where
  id : String
  name : String
  type : ExerciseType
deriving DecidableEq

structure RoutineExercise where
  exerciseId : String
  targetSets : Nat
  targetReps : Option Nat
  targetDuration : Option Nat
  restBetweenSets : Nat
deriving DecidableEq

structure Routine where
  id : String
  name : String
  exercises : List RoutineExercise
  restBetweenExercises : Nat
  notes : Option String
deriving DecidableEq

inductive SessionStatus
  | active
  | completed
  | abandoned
deriving DecidableEq

structure WorkoutSession where
  id : String
  routineId : Option String
  plannedWorkoutId : Option String
  startedAt : Nat
  endedAt : Option Nat
  status : SessionStatus
deriving DecidableEq

/-- A `RoutineExercise` bound into a live session (types/workout.ts:
`WorkoutExercise`), with the `addedDuringWorkout` flag. -/
structure WorkoutExercise where
  exerciseId : String
  targetSets : Nat
  targetReps : Option Nat
  targetDuration : Option Nat
  restBetweenSets : Nat
  addedDuringWorkout : Bool
deriving DecidableEq

/-- A decimal value parsed from a form field by JS `parseFloat`:
value = mantissa / 10 ^ scale.  The engine never computes with these values
(they are parsed, tested for falsiness and stored), so the exact decimal is
kept. -/
structure DecimalValue where
  mantissa : Int
  scale : Nat
deriving DecidableEq

/-- One logged unit of work.  JS numbers parsed from the form are `Int`
(`parseInt`) or `DecimalValue` (`parseFloat`); `none` models an absent
(`undefined`) field. -/
structure SetEntry where
  id : String
  sessionId : String
  exerciseId : String
  setIndex : Nat
  reps : Option Int
  duration : Option Int
  weight : Option DecimalValue
  rpe : Option Int
  incline : Option DecimalValue
  speed : Option DecimalValue
  distance : Option DecimalValue
  notes : Option String
  completedAt : Nat
deriving DecidableEq

/-- `Omit<SetEntry, id | completedAt>`: the payload handed to
`completeSet` before the hook stamps id and completion time. -/
structure SetEntryData where
  sessionId : String
  exerciseId : String
  setIndex : Nat
  reps : Option Int
  duration : Option Int
  weight : Option DecimalValue
  rpe : Option Int
  incline : Option DecimalValue
  speed : Option DecimalValue
  distance : Option DecimalValue
  notes : Option String
deriving DecidableEq

def SetEntryData.stamp (d : SetEntryData) (newId : String) (now : Nat) : SetEntry :=
  { id := newId
    sessionId := d.sessionId
    exerciseId := d.exerciseId
    setIndex := d.setIndex
    reps := d.reps
    duration := d.duration
    weight := d.weight
    rpe := d.rpe
    incline := d.incline
    speed := d.speed
    distance := d.distance
    notes := d.notes
    completedAt := now }

structure ActiveWorkoutState where
  session : WorkoutSession
  routine : Option Routine
  workoutExercises : List WorkoutExercise
  currentExerciseIndex : Nat
  currentSetIndex : Nat
  completedSets : List SetEntry
  isPaused : Bool
  isFreeWorkout : Bool
deriving DecidableEq

inductive WeightUnit
  | lbs
  | kgs
deriving DecidableEq

inductive DistanceUnit
  | miles
  | km
deriving DecidableEq

structure AppSettings where
  defaultRestBetweenSets : Nat
  defaultRestBetweenExercises : Nat
  soundEnabled : Bool
  vibrationEnabled : Bool
  notificationsEnabled : Bool
  weightUnit : WeightUnit
  distanceUnit : DistanceUnit
deriving DecidableEq

/-! ## JavaScript numeric parsing of the entry-form strings -/

def digitsToNat (ds : List Char) : Nat :=
  ds.foldl (fun a c => a * 10 + (c.toNat - 48)) 0

/-- JS `parseInt` on a form string (decimal): skip leading spaces, optional
sign, then the leading run of digits; `none` models `NaN` (no digits found). -/
def parseIntJS (s : String) : Option Int :=
  let t := s.data.dropWhile (fun c => c = ' ')
  match t with
  | '-' :: r =>
      let ds := r.takeWhile Char.isDigit
      if ds.isEmpty then none else some (-(digitsToNat ds : Int))
  | '+' :: r =>
      let ds := r.takeWhile Char.isDigit
      if ds.isEmpty then none else some ((digitsToNat ds : Int))
  | _ =>
      let ds := t.takeWhile Char.isDigit
      if ds.isEmpty then none else some ((digitsToNat ds : Int))

def parseFloatUnsigned (t : List Char) : Option DecimalValue :=
  let ds := t.takeWhile Char.isDigit
  let rest := t.drop ds.length
  match rest with
  | '.' :: r =>
      let fs := r.takeWhile Char.isDigit
      if ds.isEmpty && fs.isEmpty then none
      else some
        { mantissa := (digitsToNat ds * 10 ^ fs.length + digitsToNat fs : Nat)
          scale := fs.length }
  | _ =>
      if ds.isEmpty then none
      else some { mantissa := (digitsToNat ds : Nat), scale := 0 }

/-- JS `parseFloat` on a form string (decimal, optional fraction); `none`
models `NaN`. -/
def parseFloatJS (s : String) : Option DecimalValue :=
  let t := s.data.dropWhile (fun c => c = ' ')
  match t with
  | '-' :: r => (parseFloatUnsigned r).map (fun q => { q with mantissa := -q.mantissa })
  | '+' :: r => parseFloatUnsigned r
  | _ => parseFloatUnsigned t

/-- JS `x || undefined` applied to a parsed integer: both `NaN` and `0` are
falsy and collapse to `undefined`. -/
def intOrUndefined (x : Option Int) : Option Int :=
  match x with
  | some v => if v = 0 then none else some v
  | none => none

/-- JS `x || undefined` applied to a parsed float: both `NaN` and `0` are
falsy. -/
def decOrUndefined (x : Option DecimalValue) : Option DecimalValue :=
  match x with
  | some v => if v.mantissa = 0 then none else some v
  | none => none

/-- JS `s || undefined` on a string: the empty string is falsy. -/
def strOrUndefined (s : String) : Option String :=
  if s = "" then none else some s

/-! ## Persistence gateway (src/lib/db.ts) and the snapshot slot

IndexedDB `put` is an upsert keyed by `id`; the stores the session engine
touches are `sessions` and `setEntries`.  The localStorage active-workout
snapshot is the `activeWorkout` slot of `World`. -/

def putByKey {α : Type} (key : α → String) (l : List α) (x : α) : List α :=
  if l.any (fun y => key y = key x) then
    l.map (fun y => if key y = key x then x else y)
  else l ++ [x]

structure Db where
  sessions : List WorkoutSession
  setEntries : List SetEntry
deriving DecidableEq

def Db.saveSession (db : Db) (s : WorkoutSession) : Db :=
  { db with sessions := putByKey WorkoutSession.id db.sessions s }

def Db.saveSetEntry (db : Db) (e : SetEntry) : Db :=
  { db with setEntries := putByKey SetEntry.id db.setEntries e }

/-- db.ts `getActiveSession`: first session whose status index equals
`active`. -/
def Db.getActiveSession (db : Db) : Option WorkoutSession :=
  (db.sessions.filter (fun s => s.status = SessionStatus.active)).head?

/-- The world the hook operates on: the durable stores plus the single-slot
active-workout snapshot (`ironflow-active-workout`). -/
structure World where
  db : Db
  activeWorkout : Option ActiveWorkoutState
deriving DecidableEq

/-! ## useActiveWorkout hook operations (src/hooks/useWorkoutData.ts) -/

/-- `useActiveWorkout.start(routine)` (useWorkoutData.ts lines 287 to 314).
Builds a fresh active session, persists it, derives the workout exercises from
the routine and installs the snapshot.  The code performs no check of an
already existing active session. -/
def hookStart (w : World) (routine : Routine) (newId : String) (now : Nat) : World :=
  let session : WorkoutSession :=
    { id := newId
      routineId := some routine.id
      plannedWorkoutId := none
      startedAt := now
      endedAt := none
      status := SessionStatus.active }
  let db1 := w.db.saveSession session
  let workoutExercises : List WorkoutExercise :=
    routine.exercises.map (fun ex =>
      { exerciseId := ex.exerciseId
        targetSets := ex.targetSets
        targetReps := ex.targetReps
        targetDuration := ex.targetDuration
        restBetweenSets := ex.restBetweenSets
        addedDuringWorkout := false })
  { db := db1
    activeWorkout := some
      { session := session
        routine := some routine
        workoutExercises := workoutExercises
        currentExerciseIndex := 0
        currentSetIndex := 0
        completedSets := []
        isPaused := false
        isFreeWorkout := false } }

/-- `useActiveWorkout.startFreeWorkout()` (useWorkoutData.ts lines 316 to
335). -/
def hookStartFree (w : World) (newId : String) (now : Nat) : World :=
  let session : WorkoutSession :=
    { id := newId
      routineId := none
      plannedWorkoutId := none
      startedAt := now
      endedAt := none
      status := SessionStatus.active }
  let db1 := w.db.saveSession session
  { db := db1
    activeWorkout := some
      { session := session
        routine := none
        workoutExercises := []
        currentExerciseIndex := 0
        currentSetIndex := 0
        completedSets := []
        isPaused := false
        isFreeWorkout := true } }

/-- The targets argument of `addExerciseToWorkout`. -/
structure TargetInput where
  sets : Nat
  reps : Option Nat
  duration : Option Nat
  rest : Nat
deriving DecidableEq

/-- `useActiveWorkout.addExerciseToWorkout` (useWorkoutData.ts lines 337 to
358): appends one `WorkoutExercise` flagged `addedDuringWorkout`; every other
field of the state is spread through unchanged.  Returns the world unchanged
when no workout is active. -/
def hookAddExercise (w : World) (exerciseId : String) (targets : TargetInput) : World :=
  match w.activeWorkout with
  | none => w
  | some aw =>
      let newWorkoutExercise : WorkoutExercise :=
        { exerciseId := exerciseId
          targetSets := targets.sets
          targetReps := targets.reps
          targetDuration := targets.duration
          restBetweenSets := targets.rest
          addedDuringWorkout := true }
      { w with
        activeWorkout := some { aw with
          workoutExercises := aw.workoutExercises ++ [newWorkoutExercise] } }

/-- The only `Partial<ActiveWorkoutState>` shapes the screen ever passes to
`update`: a cursor patch. -/
structure CursorPatch where
  currentExerciseIndex : Option Nat
  currentSetIndex : Option Nat
deriving DecidableEq

/-- `useActiveWorkout.update(updates)` (useWorkoutData.ts lines 360 to 367):
spread of the patch over the current state. -/
def hookUpdate (w : World) (p : CursorPatch) : World :=
  match w.activeWorkout with
  | none => w
  | some aw =>
      { w with
        activeWorkout := some { aw with
          currentExerciseIndex := p.currentExerciseIndex.getD aw.currentExerciseIndex
          currentSetIndex := p.currentSetIndex.getD aw.currentSetIndex } }

/-- `useActiveWorkout.update(updates)` as invoked from inside a handler that
has already saved a newer state: the source function is a render-scoped
closure, so it spreads the `activeWorkout` value the handler captured — not
the latest snapshot — and overwrites the snapshot with that spread (the
stale-closure lost update the spec warns about in its concurrency section). -/
def hookUpdateClosure (w : World) (closure : Option ActiveWorkoutState)
    (p : CursorPatch) : World :=
  match closure with
  | none => w
  | some aw =>
      { w with
        activeWorkout := some { aw with
          currentExerciseIndex := p.currentExerciseIndex.getD aw.currentExerciseIndex
          currentSetIndex := p.currentSetIndex.getD aw.currentSetIndex } }

/-- `useActiveWorkout.completeSet(entry)` (useWorkoutData.ts lines 369 to
386).  The stamped entry is saved to the durable set-entry store FIRST,
unconditionally; only then, if a workout is active, is it appended to the
in-memory `completedSets`. -/
def hookCompleteSet (w : World) (d : SetEntryData) (newId : String) (now : Nat) : World :=
  let newEntry := d.stamp newId now
  let db1 := w.db.saveSetEntry newEntry
  match w.activeWorkout with
  | none => { db := db1, activeWorkout := none }
  | some aw =>
      { db := db1
        activeWorkout := some { aw with completedSets := aw.completedSets ++ [newEntry] } }

/-- `useActiveWorkout.end(status)` (useWorkoutData.ts lines 388 to 398):
stamps the end time and status on the session, persists it and clears the
snapshot. -/
def hookEnd (w : World) (status : SessionStatus) (now : Nat) : World :=
  match w.activeWorkout with
  | none => w
  | some aw =>
      let session := { aw.session with endedAt := some now, status := status }
      { db := w.db.saveSession session, activeWorkout := none }

/-! ## Screen state machine (src/pages/ActiveWorkout.tsx) -/

inductive WorkoutPhase
  | exercise
  | rest
  | complete
  | empty
  | cardio
deriving DecidableEq

/-- The component-local state of the ActiveWorkout screen: the phase, the two
timers and the entry-form fields (kept as the raw strings the inputs hold). -/
structure UiState where
  phase : WorkoutPhase
  restTimeLeft : Nat
  inSetTime : Nat
  inSetTimerRunning : Bool
  reps : String
  duration : String
  weight : String
  rpe : String
  notes : String
deriving DecidableEq

/-- The collaborators the screen reads: the exercise library and the
settings. -/
structure Env where
  exercises : List Exercise
  settings : AppSettings
deriving DecidableEq

/-- The combined world-plus-screen state. -/
structure Config where
  world : World
  ui : UiState
deriving DecidableEq

/-- `currentWorkoutExercise` (ActiveWorkout.tsx line 67). -/
def currentWorkoutExerciseOf (aw : ActiveWorkoutState) : Option WorkoutExercise :=
  aw.workoutExercises.get? aw.currentExerciseIndex

/-- `currentExercise` (ActiveWorkout.tsx lines 69 to 71): library lookup of
the current workout exercise. -/
def currentExerciseOf (env : Env) (aw : ActiveWorkoutState) : Option Exercise :=
  (currentWorkoutExerciseOf aw).bind
    (fun cwe => env.exercises.find? (fun e => e.id = cwe.exerciseId))

/-- The `entryData` literal of `handleCompleteSet` (ActiveWorkout.tsx lines
186 to 195).  `reps` is kept only for reps exercises and `duration` only for
time exercises (preferring a nonzero in-set stopwatch), while `weight`, `rpe`
and `notes` are built from the form for every type. -/
def completeSetEntryData (aw : ActiveWorkoutState) (ce : Exercise) (ui : UiState) :
    SetEntryData :=
  { sessionId := aw.session.id
    exerciseId := ce.id
    setIndex := aw.currentSetIndex
    reps := if ce.type = ExerciseType.reps then intOrUndefined (parseIntJS ui.reps) else none
    duration :=
      if ce.type = ExerciseType.time then
        (if ui.inSetTime ≠ 0 then some (ui.inSetTime : Int)
         else intOrUndefined (parseIntJS ui.duration))
      else none
    weight := decOrUndefined (parseFloatJS ui.weight)
    rpe := intOrUndefined (parseIntJS ui.rpe)
    incline := none
    speed := none
    distance := none
    notes := strOrUndefined ui.notes }

/-- `activeWorkout.routine?.restBetweenExercises || settings.defaultRestBetweenExercises`
(ActiveWorkout.tsx line 219): with JS `||`, a routine value of 0 is falsy and
falls back to the settings default. -/
def restBetweenExercisesResolved (routine : Option Routine) (settings : AppSettings) : Nat :=
  match routine with
  | some r =>
      if r.restBetweenExercises = 0 then settings.defaultRestBetweenExercises
      else r.restBetweenExercises
  | none => settings.defaultRestBetweenExercises

/-- The same resolution as the specification words it, with `??` semantics:
the settings default is used only when no routine is present.  Kept for
comparison with `restBetweenExercisesResolved`; it is NOT what the code
does. -/
def restBetweenExercisesClaimed (routine : Option Routine) (settings : AppSettings) : Nat :=
  match routine with
  | some r => r.restBetweenExercises
  | none => settings.defaultRestBetweenExercises

/-- `handleCompleteSet` (ActiveWorkout.tsx lines 183 to 230): guard, append
the entry through the hook, reset the form, then advance the cursor and pick
the next phase.  Both `completeSet` and `update` are closures over the same
render-scoped `activeWorkout` value, so the cursor update in the two rest
branches spreads the stale pre-append state: the just-appended SetEntry is
dropped from the snapshot's `completedSets` there (it survives durably and
in the workout-complete branch, where no update runs). -/
def handleCompleteSet (env : Env) (cfg : Config) (newId : String) (now : Nat) : Config :=
  match cfg.world.activeWorkout with
  | none => cfg
  | some aw =>
      match currentWorkoutExerciseOf aw with
      | none => cfg
      | some cwe =>
          match env.exercises.find? (fun e => e.id = cwe.exerciseId) with
          | none => cfg
          | some ce =>
              let w1 := hookCompleteSet cfg.world (completeSetEntryData aw ce cfg.ui) newId now
              let ui1 := { cfg.ui with
                notes := ""
                rpe := ""
                inSetTime := 0
                inSetTimerRunning := false }
              let isLastSet := decide (cwe.targetSets - 1 ≤ aw.currentSetIndex)
              let isLastExercise :=
                decide (aw.workoutExercises.length - 1 ≤ aw.currentExerciseIndex)
              if isLastSet && isLastExercise then
                { world := w1, ui := { ui1 with phase := WorkoutPhase.complete } }
              else if isLastSet then
                let w2 := hookUpdateClosure w1 (some aw)
                  { currentExerciseIndex := some (aw.currentExerciseIndex + 1)
                    currentSetIndex := some 0 }
                let restTime := restBetweenExercisesResolved aw.routine env.settings
                { world := w2
                  ui := { ui1 with restTimeLeft := restTime, phase := WorkoutPhase.rest } }
              else
                let w2 := hookUpdateClosure w1 (some aw)
                  { currentExerciseIndex := none
                    currentSetIndex := some (aw.currentSetIndex + 1) }
                { world := w2
                  ui := { ui1 with
                    restTimeLeft := cwe.restBetweenSets
                    phase := WorkoutPhase.rest } }

/-- `handleSkipSet` (ActiveWorkout.tsx lines 232 to 250): the same cursor
advancement as completing, but no entry is written and the phase is left
alone unless the workout is finished. -/
def handleSkipSet (cfg : Config) : Config :=
  match cfg.world.activeWorkout with
  | none => cfg
  | some aw =>
      match currentWorkoutExerciseOf aw with
      | none => cfg
      | some cwe =>
          let isLastSet := decide (cwe.targetSets - 1 ≤ aw.currentSetIndex)
          let isLastExercise :=
            decide (aw.workoutExercises.length - 1 ≤ aw.currentExerciseIndex)
          if isLastSet && isLastExercise then
            { cfg with ui := { cfg.ui with phase := WorkoutPhase.complete } }
          else if isLastSet then
            let w2 := hookUpdate cfg.world
              { currentExerciseIndex := some (aw.currentExerciseIndex + 1)
                currentSetIndex := some 0 }
            { cfg with world := w2 }
          else
            let w2 := hookUpdate cfg.world
              { currentExerciseIndex := none
                currentSetIndex := some (aw.currentSetIndex + 1) }
            { cfg with world := w2 }

/-- `handleSkipExercise` (ActiveWorkout.tsx lines 252 to 265). -/
def handleSkipExercise (cfg : Config) : Config :=
  match cfg.world.activeWorkout with
  | none => cfg
  | some aw =>
      let isLastExercise :=
        decide (aw.workoutExercises.length - 1 ≤ aw.currentExerciseIndex)
      if isLastExercise then
        { cfg with ui := { cfg.ui with phase := WorkoutPhase.complete } }
      else
        let w2 := hookUpdate cfg.world
          { currentExerciseIndex := some (aw.currentExerciseIndex + 1)
            currentSetIndex := some 0 }
        { cfg with world := w2 }

/-- One tick of the rest-timer interval callback (ActiveWorkout.tsx lines 110
to 129).  The interval only exists while the phase is `rest` and time
remains; the returned Bool records whether `playNotification` fired. -/
def restTick (ui : UiState) : UiState × Bool :=
  if ui.restTimeLeft ≤ 1 then
    ({ ui with restTimeLeft := 0, phase := WorkoutPhase.exercise }, true)
  else
    ({ ui with restTimeLeft := ui.restTimeLeft - 1 }, false)

/-- A tick fires only while the phase is `rest` with time left (the guard of
the effect installing the interval). -/
def restTickIfRunning (ui : UiState) : UiState :=
  if ui.phase = WorkoutPhase.rest ∧ 0 < ui.restTimeLeft then (restTick ui).1 else ui

/-- `n` seconds of the rest countdown. -/
def restCountdown (ui : UiState) : Nat → UiState
  | 0 => ui
  | n + 1 => restCountdown (restTickIfRunning ui) n

/-- `handleSkipRest` (ActiveWorkout.tsx lines 267 to 270). -/
def handleSkipRest (ui : UiState) : UiState :=
  { ui with restTimeLeft := 0, phase := WorkoutPhase.exercise }

/-- The +30s button of the rest screen (ActiveWorkout.tsx line 629). -/
def extendRest (ui : UiState) : UiState :=
  { ui with restTimeLeft := ui.restTimeLeft + 30 }

/-- The phase-sync effect (ActiveWorkout.tsx lines 74 to 85): an empty
exercise list forces the `empty` phase; leaving `empty` resolves to `cardio`
or `exercise` from the current exercise type. -/
def phaseSyncStep (env : Env) (aw : ActiveWorkoutState) (phase : WorkoutPhase) : WorkoutPhase :=
  if aw.workoutExercises.length = 0 ∧ phase ≠ WorkoutPhase.complete then
    WorkoutPhase.empty
  else if 0 < aw.workoutExercises.length ∧ phase = WorkoutPhase.empty then
    match currentExerciseOf env aw with
    | some ce => if ce.type = ExerciseType.cardio then WorkoutPhase.cardio else WorkoutPhase.exercise
    | none => WorkoutPhase.exercise
  else phase

/-- `handleTargetsConfirmed` (ActiveWorkout.tsx lines 310 to 326): inject the
picked exercise through the hook and, when leaving the `empty` phase, resolve
the phase from the picked exercise type. -/
def handleTargetsConfirmed (cfg : Config) (selected : Option Exercise)
    (targets : TargetInput) : Config :=
  match selected, cfg.world.activeWorkout with
  | some ex, some _ =>
      let w1 := hookAddExercise cfg.world ex.id targets
      let ui1 :=
        if cfg.ui.phase = WorkoutPhase.empty then
          { cfg.ui with phase :=
              if ex.type = ExerciseType.cardio then WorkoutPhase.cardio
              else WorkoutPhase.exercise }
        else cfg.ui
      { world := w1, ui := ui1 }
  | _, _ => cfg

/-- The `entryData` literal of `CardioWorkoutView.handleComplete`
(CardioWorkoutView.tsx lines 62 to 77): a single entry with `setIndex` 0,
built from the stopwatch and the incline, speed and distance fields; reps,
weight and rpe are never present. -/
def cardioEntryData (sessionId : String) (ex : Exercise) (elapsedTime : Nat)
    (incline speed distance notes : String) : SetEntryData :=
  { sessionId := sessionId
    exerciseId := ex.id
    setIndex := 0
    reps := none
    duration := if elapsedTime ≠ 0 then some (elapsedTime : Int) else none
    weight := none
    rpe := none
    incline := decOrUndefined (parseFloatJS incline)
    speed := decOrUndefined (parseFloatJS speed)
    distance := decOrUndefined (parseFloatJS distance)
    notes := strOrUndefined notes }

/-- `handleCardioComplete` (ActiveWorkout.tsx lines 329 to 355): append the
cardio entry, then advance the exercise cursor, with a type lookahead on the
next exercise to choose `cardio` or `rest`.  As in `handleCompleteSet`, the
cursor update spreads the stale render-scoped closure state, dropping the
cardio entry from the snapshot's `completedSets` in the non-last branch. -/
def handleCardioComplete (env : Env) (cfg : Config) (d : SetEntryData)
    (newId : String) (now : Nat) : Config :=
  match cfg.world.activeWorkout with
  | none => cfg
  | some aw =>
      let w1 := hookCompleteSet cfg.world d newId now
      let isLastExercise :=
        decide (aw.workoutExercises.length - 1 ≤ aw.currentExerciseIndex)
      if isLastExercise then
        { world := w1, ui := { cfg.ui with phase := WorkoutPhase.complete } }
      else
        let w2 := hookUpdateClosure w1 (some aw)
          { currentExerciseIndex := some (aw.currentExerciseIndex + 1)
            currentSetIndex := some 0 }
        let nextExercise :=
          (aw.workoutExercises.get? (aw.currentExerciseIndex + 1)).bind
            (fun we => env.exercises.find? (fun e => e.id = we.exerciseId))
        match nextExercise with
        | some ne =>
            if ne.type = ExerciseType.cardio then
              { world := w2, ui := { cfg.ui with phase := WorkoutPhase.cardio } }
            else
              { world := w2
                ui := { cfg.ui with
                  restTimeLeft := restBetweenExercisesResolved aw.routine env.settings
                  phase := WorkoutPhase.rest } }
        | none =>
            { world := w2
              ui := { cfg.ui with
                restTimeLeft := restBetweenExercisesResolved aw.routine env.settings
                phase := WorkoutPhase.rest } }

/-- The auto-fill guard of the last-set lookup effect (ActiveWorkout.tsx
lines 88 to 107): the fetch fires only when the current exercise id differs
from the remembered one.  Returns the new remembered id and whether
`getLastSet` was invoked. -/
def autoFillStep (prevId : Option String) (current : Option Exercise) :
    Option String × Bool :=
  match current with
  | some ce => if some ce.id ≠ prevId then (some ce.id, true) else (prevId, false)
  | none => (prevId, false)

/-- Number of `getLastSet` fetches fired over a sequence of renders, each
showing the given current exercise. -/
def autoFillFetchCount (prevId : Option String) : List (Option Exercise) → Nat
  | [] => 0
  | r :: rs =>
      let step := autoFillStep prevId r
      (if step.2 then 1 else 0) + autoFillFetchCount step.1 rs

/-! ## Operation sequences over the screen (for the temporal properties) -/

inductive WorkoutOp
  | completeSetOp (newId : String) (now : Nat)
  | skipSetOp
  | skipExerciseOp
deriving DecidableEq

def applyOp (env : Env) (cfg : Config) : WorkoutOp → Config
  | WorkoutOp.completeSetOp newId now => handleCompleteSet env cfg newId now
  | WorkoutOp.skipSetOp => handleSkipSet cfg
  | WorkoutOp.skipExerciseOp => handleSkipExercise cfg

/-- Which operations the rendered screen makes reachable in each phase: the
complete and skip-set buttons belong to the exercise branch; the skip
exercise header button renders whenever the main screen does (phases
`exercise`, `rest` and `cardio`, where it is also the cardio skip); the
complete screen and the empty screen offer none of them. -/
def opEnabled (phase : WorkoutPhase) : WorkoutOp → Bool
  | WorkoutOp.completeSetOp _ _ => phase = WorkoutPhase.exercise
  | WorkoutOp.skipSetOp => phase = WorkoutPhase.exercise
  | WorkoutOp.skipExerciseOp =>
      phase = WorkoutPhase.exercise ∨ phase = WorkoutPhase.rest ∨ phase = WorkoutPhase.cardio

def stepOp (env : Env) (cfg : Config) (op : WorkoutOp) : Config :=
  if opEnabled cfg.ui.phase op then applyOp env cfg op else cfg

def runOps (env : Env) : Config → List WorkoutOp → Config
  | cfg, [] => cfg
  | cfg, op :: ops => runOps env (stepOp env cfg op) ops

/-- The exercise cursor read off a configuration (0 when no workout is
active, matching the reset initial state). -/
def Config.exIdx (cfg : Config) : Nat :=
  (cfg.world.activeWorkout.map ActiveWorkoutState.currentExerciseIndex).getD 0

def Config.setIdx (cfg : Config) : Nat :=
  (cfg.world.activeWorkout.map ActiveWorkoutState.currentSetIndex).getD 0

/-- Lexicographic order on the cursor pair. -/
def cursorLe (a b : Config) : Prop :=
  a.exIdx < b.exIdx ∨ (a.exIdx = b.exIdx ∧ a.setIdx ≤ b.setIdx)

/-! ## Concrete fixtures used by witnesses and counterexamples -/

def exPushUp : Exercise := { id := "push-up", name := "Push-Up", type := ExerciseType.reps }

def exRow : Exercise := { id := "row", name := "Dumbbell Row", type := ExerciseType.reps }

def exPlank : Exercise := { id := "plank", name := "Plank", type := ExerciseType.time }

def exTreadmill : Exercise :=
  { id := "treadmill", name := "Treadmill", type := ExerciseType.cardio }

def settings0 : AppSettings :=
  { defaultRestBetweenSets := 90
    defaultRestBetweenExercises := 120
    soundEnabled := true
    vibrationEnabled := true
    notificationsEnabled := true
    weightUnit := WeightUnit.lbs
    distanceUnit := DistanceUnit.miles }

def env0 : Env :=
  { exercises := [exPushUp, exRow, exPlank, exTreadmill], settings := settings0 }

def emptyDb : Db := { sessions := [], setEntries := [] }

def emptyWorld : World := { db := emptyDb, activeWorkout := none }

/-- Base entry-form layout in the exercise phase. -/
def uiEx : UiState :=
  { phase := WorkoutPhase.exercise
    restTimeLeft := 0
    inSetTime := 0
    inSetTimerRunning := false
    reps := "10"
    duration := ""
    weight := ""
    rpe := ""
    notes := "" }

/-- A routine whose rest between exercises is 0 seconds (two single-set reps
exercises). -/
def routineZeroRest : Routine :=
  { id := "r0"
    name := "Zero Rest"
    exercises :=
      [ { exerciseId := "push-up", targetSets := 1, targetReps := some 10
          targetDuration := none, restBetweenSets := 30 }
      , { exerciseId := "row", targetSets := 1, targetReps := some 10
          targetDuration := none, restBetweenSets := 30 } ]
    restBetweenExercises := 0
    notes := none }

def cfgZeroRest : Config :=
  { world := hookStart emptyWorld routineZeroRest "s1" 0, ui := uiEx }

/-- A routine whose second exercise is cardio, with a short nonzero rest
between exercises. -/
def routineCardioNext : Routine :=
  { id := "r1"
    name := "Lift Then Run"
    exercises :=
      [ { exerciseId := "push-up", targetSets := 1, targetReps := some 10
          targetDuration := none, restBetweenSets := 30 }
      , { exerciseId := "treadmill", targetSets := 1, targetReps := none
          targetDuration := none, restBetweenSets := 0 } ]
    restBetweenExercises := 4
    notes := none }

def cfgCardioNext : Config :=
  { world := hookStart emptyWorld routineCardioNext "s2" 0, ui := uiEx }

/-- A free-workout state with two reps exercises of two target sets each. -/
def weTwoSets (exId : String) : WorkoutExercise :=
  { exerciseId := exId, targetSets := 2, targetReps := some 10
    targetDuration := none, restBetweenSets := 45, addedDuringWorkout := true }

def sessionFree : WorkoutSession :=
  { id := "sf", routineId := none, plannedWorkoutId := none
    startedAt := 0, endedAt := none, status := SessionStatus.active }

def awTwoByTwo : ActiveWorkoutState :=
  { session := sessionFree
    routine := none
    workoutExercises := [weTwoSets "push-up", weTwoSets "row"]
    currentExerciseIndex := 0
    currentSetIndex := 0
    completedSets := []
    isPaused := false
    isFreeWorkout := true }

def cfgTwoByTwo : Config :=
  { world := { db := emptyDb, activeWorkout := some awTwoByTwo }, ui := uiEx }

/-- A world that already holds an active session and snapshot. -/
def sessionBusy : WorkoutSession :=
  { id := "s0", routineId := none, plannedWorkoutId := none
    startedAt := 0, endedAt := none, status := SessionStatus.active }

def awBusy : ActiveWorkoutState :=
  { session := sessionBusy
    routine := none
    workoutExercises := []
    currentExerciseIndex := 0
    currentSetIndex := 0
    completedSets := []
    isPaused := false
    isFreeWorkout := true }

def worldBusy : World :=
  { db := { sessions := [sessionBusy], setEntries := [] }, activeWorkout := some awBusy }

/-- A single time exercise (one target set) with the in-set stopwatch at 45
seconds and 100 typed into the weight field. -/
def awPlankOnly : ActiveWorkoutState :=
  { session := sessionFree
    routine := none
    workoutExercises :=
      [ { exerciseId := "plank", targetSets := 1, targetReps := none
          targetDuration := some 60, restBetweenSets := 30, addedDuringWorkout := true } ]
    currentExerciseIndex := 0
    currentSetIndex := 0
    completedSets := []
    isPaused := false
    isFreeWorkout := true }

def uiPlank : UiState :=
  { phase := WorkoutPhase.exercise
    restTimeLeft := 0
    inSetTime := 45
    inSetTimerRunning := true
    reps := ""
    duration := ""
    weight := "100"
    rpe := ""
    notes := "" }

def cfgPlank : Config :=
  { world := { db := emptyDb, activeWorkout := some awPlankOnly }, ui := uiPlank }

/-- Zeroed entry-form fields in the exercise phase. -/
def uiZeroFields : UiState :=
  { phase := WorkoutPhase.exercise
    restTimeLeft := 0
    inSetTime := 0
    inSetTimerRunning := false
    reps := "0"
    duration := ""
    weight := "0"
    rpe := ""
    notes := "" }

/-- A cardio entry payload used by counterexamples. -/
def dPlank : SetEntryData := completeSetEntryData awPlankOnly exPlank uiPlank

/-! ## Theorems for the claims -/

/-- C1 counterexample: with an active session already in the store (and the
snapshot occupied), calling the start-from-routine operation does NOT fail —
it creates and persists a second session, and both sessions are now marked
active.  This contradicts the claim that the call fails with a conflict and
creates no new session. -/
theorem c1_counterexample :
    worldBusy.db.getActiveSession = some sessionBusy ∧
    worldBusy.activeWorkout = some awBusy ∧
    (hookStart worldBusy routineZeroRest "snew" 10).db.sessions.length =
      worldBusy.db.sessions.length + 1 ∧
    ((hookStart worldBusy routineZeroRest "snew" 10).db.sessions.filter
      (fun s => decide (s.status = SessionStatus.active))).length = 2 ∧
    ((hookStart worldBusy routineZeroRest "snew" 10).activeWorkout.map
      (fun st => st.session.id)).getD "" = "snew" := by
  decide

/-- C1 (amended): `useActiveWorkout.start` performs no active-session check.
For any world — in particular one that already holds an active session — it
succeeds, appends a fresh session with status `active` to the session store,
and replaces the snapshot with a new zero-cursor state; consequently starting
after `end()` succeeds as well. -/
theorem c1_start_unchecked_always_creates (w : World) (r : Routine) (newId : String)
    (now : Nat) (hfresh : ∀ s ∈ w.db.sessions, s.id ≠ newId) :
    ∃ snew : WorkoutSession,
      (hookStart w r newId now).db.sessions = w.db.sessions ++ [snew] ∧
      snew.id = newId ∧ snew.status = SessionStatus.active ∧
      snew.routineId = some r.id ∧
      ∃ st : ActiveWorkoutState,
        (hookStart w r newId now).activeWorkout = some st ∧
        st.session = snew ∧ st.currentExerciseIndex = 0 ∧ st.currentSetIndex = 0 ∧
        st.completedSets = [] := by
  have hany : w.db.sessions.any (fun y => y.id = newId) = false := by
    simp only [List.any_eq_false, decide_eq_true_eq]
    exact hfresh
  refine ⟨_, ?_, rfl, rfl, rfl, _, rfl, rfl, rfl, rfl, rfl⟩
  simp [hookStart, Db.saveSession, putByKey, hany]

/-- C1 witness: the amended theorem applied to the busy world. -/
theorem c1_witness :
    ∃ snew : WorkoutSession,
      (hookStart worldBusy routineZeroRest "snew" 10).db.sessions =
        worldBusy.db.sessions ++ [snew] ∧
      snew.id = "snew" ∧ snew.status = SessionStatus.active ∧
      snew.routineId = some routineZeroRest.id ∧
      ∃ st : ActiveWorkoutState,
        (hookStart worldBusy routineZeroRest "snew" 10).activeWorkout = some st ∧
        st.session = snew ∧ st.currentExerciseIndex = 0 ∧ st.currentSetIndex = 0 ∧
        st.completedSets = [] :=
  c1_start_unchecked_always_creates worldBusy routineZeroRest "snew" 10 (by decide)

/-- C9 counterexample: `completeSet` invoked with no active workout still
persists the stamped SetEntry to the durable set-entry store (the save runs
before the active-workout check), contradicting the claim that durable
storage is unchanged by the failed call. -/
theorem c9_counterexample :
    emptyWorld.activeWorkout = none ∧
    emptyWorld.db.setEntries = [] ∧
    (hookCompleteSet emptyWorld dPlank "n1" 7).db.setEntries =
      [dPlank.stamp "n1" 7] ∧
    (hookCompleteSet emptyWorld dPlank "n1" 7).db.setEntries ≠ [] ∧
    (hookCompleteSet emptyWorld dPlank "n1" 7).activeWorkout = none := by
  decide

/-- C9 (amended): `completeSet` with no active session leaves the in-memory
active-workout state unchanged (still none) and the session store untouched,
but it nevertheless writes the stamped SetEntry durably to the set-entry
store before the active-workout check — a partial durable mutation. -/
theorem c9_complete_set_without_session_persists_entry (w : World) (d : SetEntryData)
    (newId : String) (now : Nat) (hno : w.activeWorkout = none)
    (hfresh : ∀ e ∈ w.db.setEntries, e.id ≠ newId) :
    (hookCompleteSet w d newId now).activeWorkout = none ∧
    (hookCompleteSet w d newId now).db.setEntries =
      w.db.setEntries ++ [d.stamp newId now] ∧
    (hookCompleteSet w d newId now).db.sessions = w.db.sessions := by
  have hany : w.db.setEntries.any (fun y => y.id = newId) = false := by
    simp only [List.any_eq_false, decide_eq_true_eq]
    intro e he
    have := hfresh e he
    simp [SetEntryData.stamp]
    exact this
  simp [hookCompleteSet, Db.saveSetEntry, putByKey, hno, SetEntryData.stamp, hany]

/-- C9 witness: the amended theorem at the empty world. -/
theorem c9_witness :
    (hookCompleteSet emptyWorld dPlank "n1" 7).activeWorkout = none ∧
    (hookCompleteSet emptyWorld dPlank "n1" 7).db.setEntries =
      emptyWorld.db.setEntries ++ [dPlank.stamp "n1" 7] ∧
    (hookCompleteSet emptyWorld dPlank "n1" 7).db.sessions = emptyWorld.db.sessions :=
  c9_complete_set_without_session_persists_entry emptyWorld dPlank "n1" 7 (by decide)
    (by decide)

/-- C10: every numeric form field is built with a parse-or-undefined
fallback, so a value that parses to 0 or fails to parse is recorded as
absent: reps of 0 or blank yield no reps field, weight 0 yields no weight
field, rpe 0 or blank yields no rpe field, and a cardio completion with the
stopwatch at 0 yields no duration field. -/
theorem c10_zero_or_unparsable_fields_absent :
    (∀ aw ce ui, (parseIntJS ui.reps = none ∨ parseIntJS ui.reps = some 0) →
        (completeSetEntryData aw ce ui).reps = none) ∧
    (∀ aw ce ui,
        (parseFloatJS ui.weight = none ∨
         ∃ v, parseFloatJS ui.weight = some v ∧ v.mantissa = 0) →
        (completeSetEntryData aw ce ui).weight = none) ∧
    (∀ aw ce ui, (parseIntJS ui.rpe = none ∨ parseIntJS ui.rpe = some 0) →
        (completeSetEntryData aw ce ui).rpe = none) ∧
    (∀ sid ex incline speed distance notes,
        (cardioEntryData sid ex 0 incline speed distance notes).duration = none) := by
  refine ⟨?_, ?_, ?_, ?_⟩
  · intro aw ce ui h
    rcases h with h | h <;> simp [completeSetEntryData, intOrUndefined, h]
  · intro aw ce ui h
    rcases h with h | ⟨v, hv, hz⟩
    · simp [completeSetEntryData, decOrUndefined, h]
    · simp [completeSetEntryData, decOrUndefined, hv, hz]
  · intro aw ce ui h
    rcases h with h | h <;> simp [completeSetEntryData, intOrUndefined, h]
  · intro sid ex incline speed distance notes
    simp [cardioEntryData]

/-- C10 witness: the fallbacks at the concrete inputs 0, blank and a zeroed
stopwatch. -/
theorem c10_witness :
    (completeSetEntryData awPlankOnly exPushUp uiZeroFields).reps = none ∧
    (completeSetEntryData awPlankOnly exPushUp uiZeroFields).weight = none ∧
    (completeSetEntryData awPlankOnly exPushUp uiZeroFields).rpe = none ∧
    (cardioEntryData "sf" exTreadmill 0 "1.0" "6.5" "" "").duration = none :=
  ⟨c10_zero_or_unparsable_fields_absent.1 _ _ _ (Or.inr (by decide))
  , c10_zero_or_unparsable_fields_absent.2.1 _ _ _
      (Or.inr ⟨{ mantissa := 0, scale := 0 }, by decide, by decide⟩)
  , c10_zero_or_unparsable_fields_absent.2.2.1 _ _ _ (Or.inl (by decide))
  , c10_zero_or_unparsable_fields_absent.2.2.2 "sf" exTreadmill "1.0" "6.5" "" ""⟩

/-- Renders within the same exercise fire no history fetch once the id is
remembered. -/
lemma autoFill_same_id_no_fetch (e : Exercise) (n : Nat) :
    autoFillFetchCount (some e.id) (List.replicate n (some e)) = 0 := by
  induction n with
  | zero => rfl
  | succ n ih =>
      simp only [List.replicate, autoFillFetchCount, autoFillStep]
      rw [if_neg (by simp)]
      simpa using ih

/-- C7: the last-set history lookup fires exactly once per exercise change:
across any run of consecutive renders on the same exercise (set-index
increments included), the fetch fires on the first render that shows the new
exercise and never again. -/
theorem c7_autofill_once_per_exercise (prevId : Option String) (e : Exercise) (n : Nat)
    (h : prevId ≠ some e.id) :
    autoFillFetchCount prevId (List.replicate (n + 1) (some e)) = 1 := by
  have hc : some e.id ≠ prevId := fun hc => h hc.symm
  simp only [List.replicate, autoFillFetchCount, autoFillStep, if_pos hc]
  simpa using autoFill_same_id_no_fetch e n

/-- C7 witness: two consecutive sets of the same exercise fetch exactly
once. -/
theorem c7_witness :
    autoFillFetchCount none (List.replicate 2 (some exPushUp)) = 1 :=
  c7_autofill_once_per_exercise none exPushUp 1 (by decide)

/-- C2 counterexample: for the routine whose `restBetweenExercises` is 0,
completing the last set of a non-final exercise enters rest with the settings
default (120), not the 0-second rest the claim derives from `??` semantics;
moreover the appended SetEntry does not survive in the snapshot: the stale
cursor update spreads the pre-append state, so the final `completedSets` is
still empty even though the entry was written durably. -/
theorem c2_counterexample :
    routineZeroRest.restBetweenExercises = 0 ∧
    restBetweenExercisesClaimed (some routineZeroRest) settings0 = 0 ∧
    (handleCompleteSet env0 cfgZeroRest "x1" 5).ui.phase = WorkoutPhase.rest ∧
    (handleCompleteSet env0 cfgZeroRest "x1" 5).ui.restTimeLeft = 120 ∧
    (120 : Nat) ≠ 0 ∧
    ((handleCompleteSet env0 cfgZeroRest "x1" 5).world.activeWorkout.map
      ActiveWorkoutState.completedSets).getD [] = [] ∧
    (handleCompleteSet env0 cfgZeroRest "x1" 5).world.db.setEntries.length = 1 := by
  decide

/-- C2 (amended): completing a set durably persists exactly one stamped
SetEntry for the current cursor, and the completeSet save appends it to the
snapshot momentarily.  The advancement is as claimed except that (i) the
exercise-boundary rest duration is
`routine?.restBetweenExercises || settings.defaultRestBetweenExercises`, so
a routine value of 0 falls back to the settings default, and (ii) in both
rest branches the subsequent cursor update spreads the stale pre-append
closure state, so the final snapshot's `completedSets` drops the new entry;
it survives in `completedSets` only in the workout-complete branch, where no
cursor update runs. -/
theorem c2_complete_set_transition (env : Env) (cfg : Config) (newId : String) (now : Nat)
    (aw : ActiveWorkoutState) (cwe : WorkoutExercise) (ce : Exercise)
    (h1 : cfg.world.activeWorkout = some aw)
    (h2 : currentWorkoutExerciseOf aw = some cwe)
    (h3 : env.exercises.find? (fun e => e.id = cwe.exerciseId) = some ce) :
    (handleCompleteSet env cfg newId now).world.db =
      cfg.world.db.saveSetEntry ((completeSetEntryData aw ce cfg.ui).stamp newId now) ∧
    ((completeSetEntryData aw ce cfg.ui).stamp newId now).setIndex = aw.currentSetIndex ∧
    (hookCompleteSet cfg.world (completeSetEntryData aw ce cfg.ui) newId now).activeWorkout =
      some { aw with completedSets :=
        aw.completedSets ++ [(completeSetEntryData aw ce cfg.ui).stamp newId now] } ∧
    (cwe.targetSets - 1 ≤ aw.currentSetIndex →
       aw.workoutExercises.length - 1 ≤ aw.currentExerciseIndex →
       (handleCompleteSet env cfg newId now).ui.phase = WorkoutPhase.complete ∧
       (handleCompleteSet env cfg newId now).exIdx = aw.currentExerciseIndex ∧
       (handleCompleteSet env cfg newId now).setIdx = aw.currentSetIndex ∧
       (handleCompleteSet env cfg newId now).world.activeWorkout =
         some { aw with completedSets :=
           aw.completedSets ++ [(completeSetEntryData aw ce cfg.ui).stamp newId now] }) ∧
    (cwe.targetSets - 1 ≤ aw.currentSetIndex →
       ¬ aw.workoutExercises.length - 1 ≤ aw.currentExerciseIndex →
       (handleCompleteSet env cfg newId now).ui.phase = WorkoutPhase.rest ∧
       (handleCompleteSet env cfg newId now).exIdx = aw.currentExerciseIndex + 1 ∧
       (handleCompleteSet env cfg newId now).setIdx = 0 ∧
       (handleCompleteSet env cfg newId now).ui.restTimeLeft =
         restBetweenExercisesResolved aw.routine env.settings ∧
       (handleCompleteSet env cfg newId now).world.activeWorkout =
         some { aw with
           currentExerciseIndex := aw.currentExerciseIndex + 1
           currentSetIndex := 0 }) ∧
    (¬ cwe.targetSets - 1 ≤ aw.currentSetIndex →
       (handleCompleteSet env cfg newId now).ui.phase = WorkoutPhase.rest ∧
       (handleCompleteSet env cfg newId now).exIdx = aw.currentExerciseIndex ∧
       (handleCompleteSet env cfg newId now).setIdx = aw.currentSetIndex + 1 ∧
       (handleCompleteSet env cfg newId now).ui.restTimeLeft = cwe.restBetweenSets ∧
       (handleCompleteSet env cfg newId now).world.activeWorkout =
         some { aw with currentSetIndex := aw.currentSetIndex + 1 }) := by
  by_cases hls : cwe.targetSets - 1 ≤ aw.currentSetIndex <;>
    by_cases hle : aw.workoutExercises.length - 1 ≤ aw.currentExerciseIndex <;>
    simp [handleCompleteSet, h1, h2, h3, hls, hle, hookCompleteSet, hookUpdateClosure,
      Config.exIdx, Config.setIdx, SetEntryData.stamp, completeSetEntryData]

/-- C2 witness: the amended theorem at the two-by-two free workout;
completing a non-final set enters rest with the rest-between-sets value and
the final snapshot keeps the stale (entry-free) completedSets. -/
theorem c2_witness :
    (handleCompleteSet env0 cfgTwoByTwo "w1" 3).ui.phase = WorkoutPhase.rest ∧
    (handleCompleteSet env0 cfgTwoByTwo "w1" 3).setIdx = 1 ∧
    (handleCompleteSet env0 cfgTwoByTwo "w1" 3).ui.restTimeLeft = 45 ∧
    (handleCompleteSet env0 cfgTwoByTwo "w1" 3).world.activeWorkout =
      some { awTwoByTwo with currentSetIndex := 1 } := by
  have h := c2_complete_set_transition env0 cfgTwoByTwo "w1" 3 awTwoByTwo
    (weTwoSets "push-up") exPushUp (by decide) (by decide) (by decide)
  have h6 := h.2.2.2.2.2 (by decide)
  exact ⟨h6.1, h6.2.2.1, h6.2.2.2.1, h6.2.2.2.2⟩

/-- C3: skipping a set advances the cursor exactly as completing would, but
appends nothing (in memory and durably) and never enters rest: with sets
remaining the phase is left untouched (it stays `exercise`), while
completing under the identical cursor state transitions to `rest`. -/
theorem c3_skip_set_asymmetry (env : Env) (cfg : Config) (newId : String) (now : Nat)
    (aw : ActiveWorkoutState) (cwe : WorkoutExercise) (ce : Exercise)
    (h1 : cfg.world.activeWorkout = some aw)
    (h2 : currentWorkoutExerciseOf aw = some cwe)
    (h3 : env.exercises.find? (fun e => e.id = cwe.exerciseId) = some ce)
    (hphase : cfg.ui.phase = WorkoutPhase.exercise) :
    ((handleSkipSet cfg).exIdx = (handleCompleteSet env cfg newId now).exIdx ∧
     (handleSkipSet cfg).setIdx = (handleCompleteSet env cfg newId now).setIdx) ∧
    (∀ aw1, (handleSkipSet cfg).world.activeWorkout = some aw1 →
       aw1.completedSets = aw.completedSets) ∧
    (handleSkipSet cfg).world.db = cfg.world.db ∧
    (handleSkipSet cfg).ui.phase ≠ WorkoutPhase.rest ∧
    (¬ (cwe.targetSets - 1 ≤ aw.currentSetIndex ∧
        aw.workoutExercises.length - 1 ≤ aw.currentExerciseIndex) →
       (handleSkipSet cfg).ui.phase = WorkoutPhase.exercise ∧
       (handleCompleteSet env cfg newId now).ui.phase = WorkoutPhase.rest) ∧
    (cwe.targetSets - 1 ≤ aw.currentSetIndex →
     aw.workoutExercises.length - 1 ≤ aw.currentExerciseIndex →
       (handleSkipSet cfg).ui.phase = WorkoutPhase.complete) := by
  by_cases hls : cwe.targetSets - 1 ≤ aw.currentSetIndex <;>
    by_cases hle : aw.workoutExercises.length - 1 ≤ aw.currentExerciseIndex <;>
    simp [handleSkipSet, handleCompleteSet, h1, h2, h3, hls, hle, hphase,
      hookCompleteSet, hookUpdate, hookUpdateClosure, Config.exIdx, Config.setIdx]

/-- C3 witness: the asymmetry at the two-by-two free workout: the skip stays
in the exercise phase at set 2, the completion rests. -/
theorem c3_witness :
    (handleSkipSet cfgTwoByTwo).ui.phase = WorkoutPhase.exercise ∧
    (handleSkipSet cfgTwoByTwo).setIdx = (handleCompleteSet env0 cfgTwoByTwo "w2" 3).setIdx ∧
    (handleSkipSet cfgTwoByTwo).ui.phase ≠ WorkoutPhase.rest ∧
    (handleCompleteSet env0 cfgTwoByTwo "w2" 3).ui.phase = WorkoutPhase.rest := by
  have h := c3_skip_set_asymmetry env0 cfgTwoByTwo "w2" 3 awTwoByTwo
    (weTwoSets "push-up") exPushUp (by decide) (by decide) (by decide) (by decide)
  have h5 := h.2.2.2.2.1 (by decide)
  exact ⟨h5.1, h.1.2, h.2.2.2.1, h5.2⟩

/-- C5: a free workout starts with an empty exercise list and resolves to the
`empty` phase; injecting an exercise appends exactly one `WorkoutExercise`
flagged `addedDuringWorkout` while every other state field (cursor, completed
sets, session, routine, flags) is spread through unchanged and the stores are
untouched; confirming targets from the `empty` phase resolves the phase to
`cardio` or `exercise` from the added exercise type, with one exercise in the
list. -/
theorem c5_free_start_and_injection :
    (∀ (w : World) (newId : String) (now : Nat),
        ∃ st, (hookStartFree w newId now).activeWorkout = some st ∧
          st.workoutExercises = [] ∧ st.isFreeWorkout = true ∧
          ∀ (env : Env) (p : WorkoutPhase), p ≠ WorkoutPhase.complete →
            phaseSyncStep env st p = WorkoutPhase.empty) ∧
    (∀ (w : World) (aw : ActiveWorkoutState) (exId : String) (targets : TargetInput),
        w.activeWorkout = some aw →
        (hookAddExercise w exId targets).db = w.db ∧
        (hookAddExercise w exId targets).activeWorkout = some
          { aw with workoutExercises := aw.workoutExercises ++
              [{ exerciseId := exId
                 targetSets := targets.sets
                 targetReps := targets.reps
                 targetDuration := targets.duration
                 restBetweenSets := targets.rest
                 addedDuringWorkout := true }] }) ∧
    (∀ (cfg : Config) (aw : ActiveWorkoutState) (ex : Exercise) (targets : TargetInput),
        cfg.world.activeWorkout = some aw → aw.workoutExercises = [] →
        cfg.ui.phase = WorkoutPhase.empty →
        (handleTargetsConfirmed cfg (some ex) targets).ui.phase =
          (if ex.type = ExerciseType.cardio then WorkoutPhase.cardio
           else WorkoutPhase.exercise) ∧
        ((handleTargetsConfirmed cfg (some ex) targets).world.activeWorkout.map
          (fun st => st.workoutExercises.length)).getD 0 = 1) := by
  refine ⟨?_, ?_, ?_⟩
  · intro w newId now
    refine ⟨_, rfl, rfl, rfl, ?_⟩
    intro env p hp
    simp [phaseSyncStep, hookStartFree, hp]
  · intro w aw exId targets h
    simp [hookAddExercise, h]
  · intro cfg aw ex targets h1 hlist hphase
    constructor
    · simp [handleTargetsConfirmed, h1, hphase]
    · simp [handleTargetsConfirmed, h1, hphase, hookAddExercise, hlist]

/-- C5 witness: starting free and adding a cardio exercise from the empty
phase. -/
theorem c5_witness :
    (∃ st, (hookStartFree emptyWorld "sf" 0).activeWorkout = some st ∧
       st.workoutExercises = [] ∧ st.isFreeWorkout = true ∧
       phaseSyncStep env0 st WorkoutPhase.exercise = WorkoutPhase.empty) ∧
    ((handleTargetsConfirmed
        { world := hookStartFree emptyWorld "sf" 0, ui := { uiEx with phase := WorkoutPhase.empty } }
        (some exTreadmill)
        { sets := 1, reps := none, duration := none, rest := 60 }).ui.phase =
      WorkoutPhase.cardio) := by
  constructor
  · obtain ⟨st, hst, hlist, hfree, hsync⟩ :=
      c5_free_start_and_injection.1 emptyWorld "sf" 0
    exact ⟨st, hst, hlist, hfree, hsync env0 WorkoutPhase.exercise (by decide)⟩
  · have h := c5_free_start_and_injection.2.2
      { world := hookStartFree emptyWorld "sf" 0, ui := { uiEx with phase := WorkoutPhase.empty } }
      ((hookStartFree emptyWorld "sf" 0).activeWorkout.getD awBusy)
      exTreadmill
      { sets := 1, reps := none, duration := none, rest := 60 }
      (by decide) (by decide) rfl
    simpa using h.1

/-- C6 counterexample: completing the single set of the first (reps) exercise
of `routineCardioNext` enters the rest phase with the cardio treadmill as the
upcoming exercise; when the countdown reaches zero the phase becomes
`exercise`, not `cardio`, contradicting the claim that the auto-transition
matches the upcoming exercise type. -/
theorem c6_counterexample :
    (handleCompleteSet env0 cfgCardioNext "x1" 5).ui.phase = WorkoutPhase.rest ∧
    (handleCompleteSet env0 cfgCardioNext "x1" 5).ui.restTimeLeft = 4 ∧
    ((handleCompleteSet env0 cfgCardioNext "x1" 5).world.activeWorkout.bind
      (currentExerciseOf env0)).map Exercise.type = some ExerciseType.cardio ∧
    (restCountdown (handleCompleteSet env0 cfgCardioNext "x1" 5).ui 4).phase =
      WorkoutPhase.exercise ∧
    WorkoutPhase.exercise ≠ WorkoutPhase.cardio := by
  decide

/-- The guarded countdown from a positive remaining time always lands on the
`exercise` phase with zero remaining. -/
lemma restCountdown_reaches_exercise :
    ∀ (d : Nat) (ui : UiState), ui.phase = WorkoutPhase.rest → ui.restTimeLeft = d →
      0 < d →
      restCountdown ui d = { ui with restTimeLeft := 0, phase := WorkoutPhase.exercise } := by
  intro d
  induction d with
  | zero => intro ui _ _ hpos; exact absurd hpos (by simp)
  | succ n ih =>
      intro ui hphase htime _
      cases n with
      | zero =>
          simp [restCountdown, restTickIfRunning, hphase, htime, restTick]
      | succ m =>
          have hstep : restTickIfRunning ui = { ui with restTimeLeft := m + 1 } := by
            simp [restTickIfRunning, hphase, htime, restTick]
          have := ih { ui with restTimeLeft := m + 1 } (by simp [hphase]) rfl (by omega)
          simp only [restCountdown, hstep]
          exact this

/-- C6 (amended): the rest phase counts down in one-second steps; while more
than one second remains a tick decrements the remaining time without firing
the notification or changing the phase, and the tick that exhausts it always
moves to the `exercise` phase (regardless of the upcoming exercise type) and
fires the rest-complete notification, so a countdown of the full assigned
duration lands on `exercise` with zero left; skipping rest zeroes the
countdown and moves to `exercise` immediately; extending adds 30 seconds
without changing the phase. -/
theorem c6_rest_timer_behaviour (ui : UiState) :
    (ui.phase = WorkoutPhase.rest → 1 < ui.restTimeLeft →
       restTickIfRunning ui = { ui with restTimeLeft := ui.restTimeLeft - 1 } ∧
       (restTick ui).2 = false) ∧
    (ui.restTimeLeft = 1 →
       restTick ui = ({ ui with restTimeLeft := 0, phase := WorkoutPhase.exercise }, true)) ∧
    (ui.phase = WorkoutPhase.rest → 0 < ui.restTimeLeft →
       restCountdown ui ui.restTimeLeft =
         { ui with restTimeLeft := 0, phase := WorkoutPhase.exercise }) ∧
    handleSkipRest ui = { ui with restTimeLeft := 0, phase := WorkoutPhase.exercise } ∧
    extendRest ui = { ui with restTimeLeft := ui.restTimeLeft + 30 } := by
  refine ⟨?_, ?_, ?_, rfl, rfl⟩
  · intro hphase hgt
    have h0 : 0 < ui.restTimeLeft := by omega
    have hnot : ¬ ui.restTimeLeft ≤ 1 := by omega
    constructor
    · simp [restTickIfRunning, restTick, hphase, h0, hnot]
    · simp [restTick, hnot]
  · intro h1
    simp [restTick, h1]
  · intro hphase hpos
    exact restCountdown_reaches_exercise ui.restTimeLeft ui hphase rfl hpos

/-- C6 witness: the amended behaviour at a concrete 4-second rest. -/
theorem c6_witness :
    restTickIfRunning (handleCompleteSet env0 cfgCardioNext "x1" 5).ui =
      { (handleCompleteSet env0 cfgCardioNext "x1" 5).ui with restTimeLeft := 3 } ∧
    restCountdown (handleCompleteSet env0 cfgCardioNext "x1" 5).ui 4 =
      { (handleCompleteSet env0 cfgCardioNext "x1" 5).ui with
        restTimeLeft := 0
        phase := WorkoutPhase.exercise } := by
  have h := c6_rest_timer_behaviour (handleCompleteSet env0 cfgCardioNext "x1" 5).ui
  have h1 := (h.1 (by decide) (by decide)).1
  have h3 := h.2.2.1 (by decide) (by decide)
  constructor
  · simpa using h1
  · have hrt : (handleCompleteSet env0 cfgCardioNext "x1" 5).ui.restTimeLeft = 4 := by decide
    rw [hrt] at h3
    exact h3

/-- C8 counterexample: completing a set of a TIME exercise with 100 typed in
the weight field produces a SetEntry carrying both a duration and a weight —
measurement fields are mixed across types, contradicting the claim that time
exercises record duration only. -/
theorem c8_counterexample :
    exPlank.type = ExerciseType.time ∧
    (completeSetEntryData awPlankOnly exPlank uiPlank).duration = some 45 ∧
    (completeSetEntryData awPlankOnly exPlank uiPlank).weight =
      some { mantissa := 100, scale := 0 } ∧
    (handleCompleteSet env0 cfgPlank "x2" 9).world.activeWorkout =
      some { awPlankOnly with
             completedSets :=
               [(completeSetEntryData awPlankOnly exPlank uiPlank).stamp "x2" 9] } := by
  decide

/-- C8 (amended): the set-form entry keeps reps only for reps exercises and
duration only for time exercises and never carries the cardio-only fields,
but weight, rpe and notes are built from the shared form for every exercise
type (so a time-exercise entry may also carry a weight); the cardio view
entry records duration, incline, speed and distance at set index 0 and never
carries reps, weight or rpe. -/
theorem c8_measurement_fields_by_type :
    (∀ aw ce ui,
        (ce.type ≠ ExerciseType.reps → (completeSetEntryData aw ce ui).reps = none) ∧
        (ce.type ≠ ExerciseType.time → (completeSetEntryData aw ce ui).duration = none) ∧
        (completeSetEntryData aw ce ui).incline = none ∧
        (completeSetEntryData aw ce ui).speed = none ∧
        (completeSetEntryData aw ce ui).distance = none) ∧
    (∀ sid ex t incline speed distance notes,
        (cardioEntryData sid ex t incline speed distance notes).reps = none ∧
        (cardioEntryData sid ex t incline speed distance notes).weight = none ∧
        (cardioEntryData sid ex t incline speed distance notes).rpe = none ∧
        (cardioEntryData sid ex t incline speed distance notes).setIndex = 0) := by
  constructor
  · intro aw ce ui
    refine ⟨?_, ?_, rfl, rfl, rfl⟩
    · intro h; simp [completeSetEntryData, h]
    · intro h; simp [completeSetEntryData, h]
  · intro sid ex t incline speed distance notes
    exact ⟨rfl, rfl, rfl, rfl⟩

/-- C8 witness: the typed fields at the treadmill (neither reps nor time). -/
theorem c8_witness :
    (completeSetEntryData awPlankOnly exTreadmill uiPlank).reps = none ∧
    (completeSetEntryData awPlankOnly exTreadmill uiPlank).duration = none ∧
    (cardioEntryData "sf" exTreadmill 300 "1.0" "6.5" "3.1" "").reps = none ∧
    (cardioEntryData "sf" exTreadmill 300 "1.0" "6.5" "3.1" "").weight = none :=
  ⟨(c8_measurement_fields_by_type.1 awPlankOnly exTreadmill uiPlank).1 (by decide)
  , (c8_measurement_fields_by_type.1 awPlankOnly exTreadmill uiPlank).2.1 (by decide)
  , (c8_measurement_fields_by_type.2 "sf" exTreadmill 300 "1.0" "6.5" "3.1" "").1
  , (c8_measurement_fields_by_type.2 "sf" exTreadmill 300 "1.0" "6.5" "3.1" "").2.1⟩

/-- Completing a set leaves the cursor, bumps the set index, or advances the
exercise index with a set-index reset. -/
lemma handleCompleteSet_cursor (env : Env) (cfg : Config) (newId : String) (now : Nat) :
    ((handleCompleteSet env cfg newId now).exIdx = cfg.exIdx ∧
     (handleCompleteSet env cfg newId now).setIdx = cfg.setIdx) ∨
    ((handleCompleteSet env cfg newId now).exIdx = cfg.exIdx ∧
     (handleCompleteSet env cfg newId now).setIdx = cfg.setIdx + 1) ∨
    ((handleCompleteSet env cfg newId now).exIdx = cfg.exIdx + 1 ∧
     (handleCompleteSet env cfg newId now).setIdx = 0) := by
  rcases h1 : cfg.world.activeWorkout with _ | aw
  · left; simp [handleCompleteSet, h1]
  · rcases h2 : currentWorkoutExerciseOf aw with _ | cwe
    · left; simp [handleCompleteSet, h1, h2]
    · rcases h3 : env.exercises.find? (fun e => e.id = cwe.exerciseId) with _ | ce
      · left; simp [handleCompleteSet, h1, h2, h3]
      · by_cases hls : cwe.targetSets - 1 ≤ aw.currentSetIndex
        · by_cases hle : aw.workoutExercises.length - 1 ≤ aw.currentExerciseIndex
          · left
            simp [handleCompleteSet, h1, h2, h3, hls, hle, hookCompleteSet,
              Config.exIdx, Config.setIdx]
          · right; right
            simp [handleCompleteSet, h1, h2, h3, hls, hle, hookCompleteSet,
              hookUpdateClosure, Config.exIdx, Config.setIdx]
        · right; left
          simp [handleCompleteSet, h1, h2, h3, hls, hookCompleteSet, hookUpdateClosure,
            Config.exIdx, Config.setIdx]

/-- Skipping a set makes the same cursor moves as completing. -/
lemma handleSkipSet_cursor (cfg : Config) :
    ((handleSkipSet cfg).exIdx = cfg.exIdx ∧ (handleSkipSet cfg).setIdx = cfg.setIdx) ∨
    ((handleSkipSet cfg).exIdx = cfg.exIdx ∧ (handleSkipSet cfg).setIdx = cfg.setIdx + 1) ∨
    ((handleSkipSet cfg).exIdx = cfg.exIdx + 1 ∧ (handleSkipSet cfg).setIdx = 0) := by
  rcases h1 : cfg.world.activeWorkout with _ | aw
  · left; simp [handleSkipSet, h1]
  · rcases h2 : currentWorkoutExerciseOf aw with _ | cwe
    · left; simp [handleSkipSet, h1, h2]
    · by_cases hls : cwe.targetSets - 1 ≤ aw.currentSetIndex
      · by_cases hle : aw.workoutExercises.length - 1 ≤ aw.currentExerciseIndex
        · left
          simp [handleSkipSet, h1, h2, hls, hle, Config.exIdx, Config.setIdx]
        · right; right
          simp [handleSkipSet, h1, h2, hls, hle, hookUpdate, Config.exIdx, Config.setIdx]
      · right; left
        simp [handleSkipSet, h1, h2, hls, hookUpdate, Config.exIdx, Config.setIdx]

/-- Skipping an exercise leaves the cursor or advances the exercise index
with a set-index reset. -/
lemma handleSkipExercise_cursor (cfg : Config) :
    ((handleSkipExercise cfg).exIdx = cfg.exIdx ∧
     (handleSkipExercise cfg).setIdx = cfg.setIdx) ∨
    ((handleSkipExercise cfg).exIdx = cfg.exIdx + 1 ∧
     (handleSkipExercise cfg).setIdx = 0) := by
  rcases h1 : cfg.world.activeWorkout with _ | aw
  · left; simp [handleSkipExercise, h1]
  · by_cases hle : aw.workoutExercises.length - 1 ≤ aw.currentExerciseIndex
    · left
      simp [handleSkipExercise, h1, hle, Config.exIdx, Config.setIdx]
    · right
      simp [handleSkipExercise, h1, hle, hookUpdate, Config.exIdx, Config.setIdx]

lemma stepOp_cursor (env : Env) (cfg : Config) (op : WorkoutOp) :
    ((stepOp env cfg op).exIdx = cfg.exIdx ∧ (stepOp env cfg op).setIdx = cfg.setIdx) ∨
    ((stepOp env cfg op).exIdx = cfg.exIdx ∧ (stepOp env cfg op).setIdx = cfg.setIdx + 1) ∨
    ((stepOp env cfg op).exIdx = cfg.exIdx + 1 ∧ (stepOp env cfg op).setIdx = 0) := by
  by_cases he : opEnabled cfg.ui.phase op
  · cases op with
    | completeSetOp newId now =>
        simpa [stepOp, he, applyOp] using handleCompleteSet_cursor env cfg newId now
    | skipSetOp =>
        simpa [stepOp, he, applyOp] using handleSkipSet_cursor cfg
    | skipExerciseOp =>
        rcases handleSkipExercise_cursor cfg with h | h
        · left; simpa [stepOp, he, applyOp] using h
        · right; right; simpa [stepOp, he, applyOp] using h
  · left; simp [stepOp, he]

lemma stepOp_exIdx_le (env : Env) (cfg : Config) (op : WorkoutOp) :
    cfg.exIdx ≤ (stepOp env cfg op).exIdx := by
  rcases stepOp_cursor env cfg op with ⟨h, _⟩ | ⟨h, _⟩ | ⟨h, _⟩ <;> omega

lemma stepOp_cursorLe (env : Env) (cfg : Config) (op : WorkoutOp) :
    cursorLe cfg (stepOp env cfg op) := by
  rcases stepOp_cursor env cfg op with ⟨h1, h2⟩ | ⟨h1, h2⟩ | ⟨h1, h2⟩ <;>
    unfold cursorLe <;> omega

lemma cursorLe_trans {a b c : Config} (h1 : cursorLe a b) (h2 : cursorLe b c) :
    cursorLe a c := by
  unfold cursorLe at *
  omega

/-- In the `complete` phase no operation is reachable, so a step changes
nothing. -/
lemma stepOp_complete_fixed (env : Env) (cfg : Config) (op : WorkoutOp)
    (h : cfg.ui.phase = WorkoutPhase.complete) : stepOp env cfg op = cfg := by
  cases op <;> simp [stepOp, opEnabled, h]

/-- C4 counterexample: two enabled skip-set steps on a two-set exercise take
the set index from 1 back to 0 while the phase never reaches `complete`, so
`currentSetIndex` is NOT non-decreasing as the claim states. -/
theorem c4_counterexample :
    (runOps env0 cfgTwoByTwo [WorkoutOp.skipSetOp]).ui.phase ≠ WorkoutPhase.complete ∧
    (runOps env0 cfgTwoByTwo [WorkoutOp.skipSetOp, WorkoutOp.skipSetOp]).ui.phase ≠
      WorkoutPhase.complete ∧
    (runOps env0 cfgTwoByTwo [WorkoutOp.skipSetOp]).setIdx = 1 ∧
    (runOps env0 cfgTwoByTwo [WorkoutOp.skipSetOp, WorkoutOp.skipSetOp]).setIdx = 0 ∧
    ¬ (runOps env0 cfgTwoByTwo [WorkoutOp.skipSetOp]).setIdx ≤
        (runOps env0 cfgTwoByTwo [WorkoutOp.skipSetOp, WorkoutOp.skipSetOp]).setIdx := by
  decide

/-- C4 (amended): along any sequence of complete-set, skip-set and
skip-exercise operations, `currentExerciseIndex` is non-decreasing and the
cursor pair is non-decreasing in the lexicographic order — `currentSetIndex`
itself resets to 0 whenever the exercise index advances — and once the phase
is `complete` no operation is reachable, so no further advancement occurs. -/
theorem c4_cursor_monotonicity (env : Env) (cfg : Config) (ops : List WorkoutOp) :
    cfg.exIdx ≤ (runOps env cfg ops).exIdx ∧
    cursorLe cfg (runOps env cfg ops) ∧
    (cfg.ui.phase = WorkoutPhase.complete → runOps env cfg ops = cfg) := by
  induction ops generalizing cfg with
  | nil => exact ⟨le_refl _, Or.inr ⟨rfl, le_refl _⟩, fun _ => rfl⟩
  | cons op ops ih =>
      simp only [runOps]
      refine ⟨le_trans (stepOp_exIdx_le env cfg op) (ih (stepOp env cfg op)).1,
              cursorLe_trans (stepOp_cursorLe env cfg op) (ih (stepOp env cfg op)).2.1,
              ?_⟩
      intro h
      rw [stepOp_complete_fixed env cfg op h]
      exact (ih cfg).2.2 h

/-- A finished-workout configuration. -/
def cfgComplete : Config :=
  { cfgTwoByTwo with ui := { uiEx with phase := WorkoutPhase.complete } }

/-- C4 witness: the amended monotonicity at the two-by-two workout and the
no-advancement clause at a completed configuration. -/
theorem c4_witness :
    cfgTwoByTwo.exIdx ≤
      (runOps env0 cfgTwoByTwo [WorkoutOp.skipSetOp, WorkoutOp.skipSetOp]).exIdx ∧
    cursorLe cfgTwoByTwo
      (runOps env0 cfgTwoByTwo [WorkoutOp.skipSetOp, WorkoutOp.skipSetOp]) ∧
    runOps env0 cfgComplete [WorkoutOp.skipSetOp, WorkoutOp.completeSetOp "x" 1] =
      cfgComplete :=
  ⟨(c4_cursor_monotonicity env0 cfgTwoByTwo
      [WorkoutOp.skipSetOp, WorkoutOp.skipSetOp]).1
  , (c4_cursor_monotonicity env0 cfgTwoByTwo
      [WorkoutOp.skipSetOp, WorkoutOp.skipSetOp]).2.1
  , (c4_cursor_monotonicity env0 cfgComplete
      [WorkoutOp.skipSetOp, WorkoutOp.completeSetOp "x" 1]).2.2 rfl⟩

end LiftStateFlow
